import Mathlib

/-!
Shallow embedding of the OLX-Scraper dashboard
(`src/frontend/src/components/Dashboard.tsx`) together with a spec-modelled
view of the backend Store operations it talks to.  The dashboard is a React
component; we embed its state as a structure and each handler
(`fetchListings`, `scrapeListings`, …) as a state-transition function on
explicit request outcomes.  JavaScript runtime values that flow in from the
network are modelled by `JsonVal`, so that the duck-typed validation filter
and the truthiness tests (`!l.seen`, `listing.image_url ? … : …`) keep their
JavaScript semantics.
-/

/-- A JSON-ish runtime value as seen by the dashboard's duck-typed checks.
`jundef` models an absent field (`undefined`); `jobjv` a nested object or
array (whose contents the dashboard never inspects).  Numeric `NaN` does not
arise for the fields the dashboard tests for truthiness, so `Int` suffices. -/
inductive JsonVal where
  | jundef : JsonVal
  | jnull : JsonVal
  | jbool (b : Bool) : JsonVal
  | jnum (n : Int) : JsonVal
  | jstr (s : String) : JsonVal
  | jobjv : JsonVal
deriving DecidableEq, Repr

/-- JavaScript truthiness of a `JsonVal` (`undefined`, `null`, `false`, `0`
and the empty string are falsy; objects are truthy). -/
def JsonVal.truthy : JsonVal → Bool
  | .jundef => false
  | .jnull => false
  | .jbool b => b
  | .jnum n => n != 0
  | .jstr s => s != ""
  | .jobjv => true

/-- `typeof v === 'string'`. -/
def JsonVal.isString : JsonVal → Bool
  | .jstr _ => true
  | _ => false

/-- The string content of a `JsonVal`; used only where the dashboard's
validation filter has already guaranteed the field is a string. -/
def JsonVal.asString : JsonVal → String
  | .jstr s => s
  | _ => ""

/-- A JSON object in a listings response, with the fields the dashboard ever
reads (`Dashboard.tsx` lines 9-20 name exactly these).  A field the server
omitted is `jundef`. -/
structure RawObj where
  id : JsonVal
  title : JsonVal
  price : JsonVal
  location : JsonVal
  date : JsonVal
  link : JsonVal
  image_url : JsonVal
  scraped_at : JsonVal
  is_new : JsonVal
  seen : JsonVal
deriving DecidableEq, Repr

/-- One element of the response array: either a value whose `typeof` is not
`'object'` (it fails the filter's first conjunct) or an object.  (A literal
`null` element, which would make the filter throw in JavaScript, is outside
the model.) -/
inductive RespItem where
  | nonObject : RespItem
  | obj (o : RawObj) : RespItem
deriving DecidableEq, Repr

/-- The field checks of the validation filter in `fetchListings`
(`Dashboard.tsx` lines 67-76): `typeof listing.id === 'string'` and likewise
for `title`, `price`, `location`, `link` — and no other field. -/
def validCheck (o : RawObj) : Bool :=
  o.id.isString && o.title.isString && o.price.isString &&
    o.location.isString && o.link.isString

/-- `response.data.filter(...)` from `fetchListings`: the retained listings.
Retained items are exactly the object items passing `validCheck`, so we
return them as `RawObj`s. -/
def validListings (data : List RespItem) : List RawObj :=
  data.filterMap fun item =>
    match item with
    | .nonObject => none
    | .obj o => if validCheck o then some o else none

/-- The `stats` React state object (`{total, unseen}`). -/
structure Stats where
  total : Int
  unseen : Int
deriving DecidableEq, Repr

/-- `setStats({total: validListings.length, unseen: validListings.filter(l => !l.seen).length})`
(`Dashboard.tsx` lines 80-83).  `!l.seen` is JavaScript negation, i.e.
truthiness. -/
def derivedStats (ls : List RawObj) : Stats :=
  { total := (ls.length : Int)
    unseen := ((ls.filter fun l => !(l.seen.truthy)).length : Int) }

/-- The React state of the `Dashboard` component (`Dashboard.tsx` lines
25-35). -/
structure DashState where
  listings : List RawObj
  loading : Bool
  error : Option String
  showOnlyUnseen : Bool
  scraping : Bool
  searchQuery : String
  retryCount : Nat
  stats : Stats
deriving DecidableEq, Repr

/-- The `useState` initial values. -/
def initialState : DashState :=
  { listings := []
    loading := true
    error := none
    showOnlyUnseen := false
    scraping := false
    searchQuery := ""
    retryCount := 0
    stats := { total := 0, unseen := 0 } }

/-- JavaScript `a || b` on an optional string `a` (an absent or empty string
falls through to `b`), as in `err.response?.data?.detail || 'Unknown error'`. -/
def jsOrElse (a : Option String) (b : String) : String :=
  match a with
  | none => b
  | some s => if s = "" then b else s

/-- How one run of the `axios.get` in `fetchListings` can end, mirroring the
branches of `Dashboard.tsx` lines 66-109: a 2xx response whose body is an
array, a 2xx response whose body is not an array, a 401, a network error, a
500 (with optional `detail`), any other axios error (optional `detail` plus
`err.message`), or a non-axios exception. -/
inductive FetchOutcome where
  | success (data : List RespItem) : FetchOutcome
  | nonArrayBody : FetchOutcome
  | httpUnauthorized : FetchOutcome
  | networkErr : FetchOutcome
  | serverErr (detail : Option String) : FetchOutcome
  | axiosOther (detail : Option String) (message : String) : FetchOutcome
  | nonAxiosErr : FetchOutcome
deriving DecidableEq, Repr

/-- Outcomes that take one of the error branches of `fetchListings`. -/
def FetchOutcome.isFailure : FetchOutcome → Bool
  | .success _ => false
  | _ => true

/-- State transition of `fetchListings` (`Dashboard.tsx` lines 42-113).
The missing-token guard returns early; otherwise the `try` block sets
`loading`/`error`, the branches run, and the `finally` clears `loading`. -/
def fetchListings (tokenPresent : Bool) (outcome : FetchOutcome)
    (s : DashState) : DashState :=
  if !tokenPresent then
    { s with error := some "Authentication token is missing", loading := false }
  else
    let s1 := { s with loading := true, error := none }
    let s2 :=
      match outcome with
      | .success data =>
          let valid := validListings data
          { s1 with listings := valid, stats := derivedStats valid,
                    retryCount := 0 }
      | .nonArrayBody =>
          { s1 with error := some "Invalid response format from server" }
      | .httpUnauthorized =>
          { s1 with error := some "Session expired. Please login again." }
      | .networkErr =>
          { s1 with
              error := some "Network error. Please check if the server is running." }
      | .serverErr detail =>
          { s1 with
              error := some ("Server error: " ++ jsOrElse detail "Unknown error") }
      | .axiosOther detail message =>
          { s1 with
              error := some ("Failed to fetch listings: " ++ jsOrElse detail message) }
      | .nonAxiosErr =>
          { s1 with error := some "Failed to fetch listings. Please try again." }
    { s2 with loading := false }

/-- How one run of `scrapeListings` can end (`Dashboard.tsx` lines 120-145):
the `POST /scrape` succeeds with `{total_listings, unseen_listings}` and the
follow-up `await fetchListings()` has its own outcome, or the POST fails with
a 401, another axios error, or a non-axios exception. -/
inductive ScrapeOutcome where
  | success (total_listings unseen_listings : Int) (thenFetch : FetchOutcome) :
      ScrapeOutcome
  | httpUnauthorized : ScrapeOutcome
  | axiosErr (detail : Option String) (message : String) : ScrapeOutcome
  | nonAxiosErr : ScrapeOutcome
deriving DecidableEq, Repr

/-- Outcomes that take one of the error branches of `scrapeListings`. -/
def ScrapeOutcome.isFailure : ScrapeOutcome → Bool
  | .success _ _ _ => false
  | _ => true

/-- State transition of `scrapeListings` (`Dashboard.tsx` lines 120-145):
`setScraping(true)`, then on success `setStats` from the POST response
followed by `await fetchListings()`; on error set an error message; in all
cases the `finally` clears `scraping`. -/
def scrapeListings (tokenPresent : Bool) (outcome : ScrapeOutcome)
    (s : DashState) : DashState :=
  match outcome with
  | .success t u thenFetch =>
      let s1 := { s with scraping := true, stats := { total := t, unseen := u } }
      let s2 := fetchListings tokenPresent thenFetch s1
      { s2 with scraping := false }
  | .httpUnauthorized =>
      { s with scraping := false,
               error := some "Session expired. Please login again." }
  | .axiosErr detail message =>
      { s with scraping := false,
               error := some ("Failed to scrape listings: " ++ jsOrElse detail message) }
  | .nonAxiosErr =>
      { s with scraping := false,
               error := some "Failed to scrape listings. Please try again." }

/-- JavaScript `s.toLowerCase()`, modelled characterwise (the search fields
here are ASCII-insensitive in the same way). -/
def jsToLowerCase (s : String) : String :=
  String.mk (s.toList.map Char.toLower)

/-- JavaScript `s.includes(pat)`: `pat` occurs contiguously in `s`. -/
def jsIncludes (s pat : String) : Bool :=
  decide (pat.toList <:+: s.toList)

/-- The search predicate of `filteredAndSortedListings` (`Dashboard.tsx`
lines 191-198): lowercase the query once, then test `title`, `location` and
`price` (in that order) with `includes`. -/
def matchesSearch (searchQuery : String) (l : RawObj) : Bool :=
  let searchLower := jsToLowerCase searchQuery
  jsIncludes (jsToLowerCase l.title.asString) searchLower ||
    jsIncludes (jsToLowerCase l.location.asString) searchLower ||
    jsIncludes (jsToLowerCase l.price.asString) searchLower

/-- The sort comparator of `filteredAndSortedListings` (`Dashboard.tsx` line
199), `(a, b) => new Date(b.scraped_at).getTime() - new Date(a.scraped_at).getTime()`,
as the ordering "`a` may precede `b`".  `ts` maps each `scraped_at` value to
the epoch-milliseconds timestamp `new Date(…).getTime()` yields for it; its
totality as a function into `Int` embodies the assumption that every
`scraped_at` in play parses as a valid date (no `NaN`). -/
def scrapedAtDescending (ts : JsonVal → Int) (a b : RawObj) : Bool :=
  decide (ts b.scraped_at ≤ ts a.scraped_at)

/-- `filteredAndSortedListings` (`Dashboard.tsx` lines 188-202): filter by
the search query, then sort most-recent-`scraped_at`-first.  JavaScript's
`Array.prototype.sort` with a consistent comparator is modelled by a stable
merge sort under the comparator's ordering. -/
def filteredAndSortedListings (ts : JsonVal → Int) (searchQuery : String)
    (listings : List RawObj) : List RawObj :=
  (listings.filter (matchesSearch searchQuery)).mergeSort (scrapedAtDescending ts)

/-- The empty-grid message (`Dashboard.tsx` lines 283-286): rendered when
`filteredAndSortedListings` is empty; its text depends on the truthiness of
`searchQuery`. -/
def noListingsMessage (searchQuery : String) (visible : List RawObj) :
    Option String :=
  if visible.length = 0 then
    some (if searchQuery = "" then "No listings found"
          else "No listings match your search")
  else none

/-- What the listing-card image slot renders. -/
inductive ImageRender where
  | img (src alt : String) : ImageRender
  | noImagePlaceholder : ImageRender
deriving DecidableEq, Repr

/-- The image slot (`Dashboard.tsx` lines 294-307): `listing.image_url ?
<img …/> : <div className="no-image">No Image</div>` — a truthiness test. -/
def renderListingImage (l : RawObj) : ImageRender :=
  if l.image_url.truthy then .img l.image_url.asString l.title.asString
  else .noImagePlaceholder

/-- The Mark-as-Seen control (`Dashboard.tsx` lines 324-331): rendered only
when `!listing.seen`; clicking it calls `markAsSeen([listing.id])`, so the
value carried is the request body that click would send. -/
def markSeenButton (l : RawObj) : Option (List String) :=
  if l.seen.truthy then none else some [l.id.asString]

/-- The `include_seen` query parameter of the GET in `fetchListings`
(`Dashboard.tsx` line 54): `!showOnlyUnseen`. -/
def listingsRequestIncludeSeen (showOnlyUnseen : Bool) : Bool :=
  !showOnlyUnseen

/-- Rendering of a boolean into a JavaScript template literal. -/
def jsBoolString (b : Bool) : String :=
  if b then "true" else "false"

/-- The full URL of the listings GET (`Dashboard.tsx` line 54). -/
def listingsRequestUrl (apiUrl : String) (showOnlyUnseen : Bool) : String :=
  apiUrl ++ "/listings?include_seen=" ++
    jsBoolString (listingsRequestIncludeSeen showOnlyUnseen)

/-- Modelled from the spec: the persisted Listing record of the backend
Store (spec section 3); the backend itself is not under `src/`. -/
structure StoreListing where
  id : String
  title : String
  price : String
  location : String
  date : String
  link : String
  image_url : Option String
  scraped_at : String
  is_new : Bool
  seen : Bool
deriving DecidableEq, Repr

/-- Modelled from the spec: `list(filter: {includeSeen: bool})` returns all
persisted listings, optionally excluding `seen = true` ones (spec section
4.3). -/
def storeList (includeSeen : Bool) (store : List StoreListing) :
    List StoreListing :=
  if includeSeen then store else store.filter fun l => !l.seen

/-- Modelled from the spec: `stats() -> {total, unseen}`, derived from the
records (spec section 4.3); also the `{total_listings, unseen_listings}`
body of `POST scrape` (spec section 6). -/
def storeStats (store : List StoreListing) : Stats :=
  { total := (store.length : Int)
    unseen := ((store.filter fun l => !l.seen).length : Int) }

/-- Modelled from the spec: `markSeen(ids) -> count_updated` sets
`seen = true` for each matching persisted record and ignores unknown ids
(spec section 4.3). -/
def markSeen (ids : List String) (store : List StoreListing) :
    List StoreListing :=
  store.map fun l => if l.id ∈ ids then { l with seen := true } else l

/-- Modelled from the spec: serialization of a persisted listing into the
JSON object of a `GET listings` response (spec section 6: "JSON array of
objects matching section 3 fields"). -/
def serializeObj (l : StoreListing) : RawObj :=
  { id := .jstr l.id
    title := .jstr l.title
    price := .jstr l.price
    location := .jstr l.location
    date := .jstr l.date
    link := .jstr l.link
    image_url := match l.image_url with
      | none => .jnull
      | some s => .jstr s
    scraped_at := .jstr l.scraped_at
    is_new := .jbool l.is_new
    seen := .jbool l.seen }

/-- Modelled from the spec: a `GET listings` response item. -/
def serializeListing (l : StoreListing) : RespItem :=
  .obj (serializeObj l)

/-- A response object that passes the validation filter although its `link`
is the empty string. -/
def c3Obj : RawObj :=
  { id := .jstr "1001", title := .jstr "Bike", price := .jstr "100 zl",
    location := .jstr "Krakow", date := .jstr "today", link := .jstr "",
    image_url := .jnull, scraped_at := .jstr "2024-01-01T00:00:00Z",
    is_new := .jbool true, seen := .jbool false }

/-- `c3Obj` as a response array element. -/
def c3Item : RespItem := .obj c3Obj

/-- A two-record spec-modelled Store: one acknowledged listing and one not. -/
def c1StoreSeen : StoreListing :=
  { id := "1", title := "Sofa", price := "200 zl", location := "Warszawa",
    date := "yesterday", link := "http://olx.example/1", image_url := none,
    scraped_at := "2024-01-01T00:00:00Z", is_new := false, seen := true }

/-- The unacknowledged record of the two-record Store. -/
def c1StoreUnseen : StoreListing :=
  { id := "2", title := "Table", price := "80 zl", location := "Gdansk",
    date := "today", link := "http://olx.example/2", image_url := none,
    scraped_at := "2024-01-02T00:00:00Z", is_new := true, seen := false }

/-- The two-record Store itself. -/
def c1Store : List StoreListing := [c1StoreSeen, c1StoreUnseen]

/-- The dashboard state after flipping the unseen-only toggle on. -/
def c1ToggledState : DashState := { initialState with showOnlyUnseen := true }

/-- A consistent run outcome against the two-record Store with the toggle
on: `POST /scrape` returns the Store's stats `{total := 2, unseen := 1}`,
and the follow-up GET (with `include_seen = !showOnlyUnseen = false`)
returns the serialized unseen records. -/
def c1Outcome : ScrapeOutcome :=
  .success (storeStats c1Store).total (storeStats c1Store).unseen
    (.success ((storeList (listingsRequestIncludeSeen c1ToggledState.showOnlyUnseen)
      c1Store).map serializeListing))

/-- C2: after every successful fetch, the displayed stats are derived from
the retained records — `stats.total` is the number of listings retained by
the validation filter and `stats.unseen` the number of retained listings
whose `seen` field is not true (the code's `!l.seen`, JavaScript falsiness,
which coincides with `seen ≠ true` for the boolean-typed `seen` of the
`Listing` interface); the retained records themselves become the displayed
`listings`. -/
theorem c2_stats_derived_from_retained (s : DashState) (data : List RespItem) :
    (fetchListings true (.success data) s).listings = validListings data ∧
    (fetchListings true (.success data) s).stats.total =
      ((validListings data).length : Int) ∧
    (fetchListings true (.success data) s).stats.unseen =
      (((validListings data).filter fun l => !(l.seen.truthy)).length : Int) := by
  refine ⟨?_, ?_, ?_⟩ <;> simp [fetchListings, derivedStats]

/-- C3 counterexample: the validation filter retains `c3Obj` even though its
`link` is the empty string, so the dashboard does not enforce the Listing
model's non-emptiness requirement on `link`. -/
theorem c3_counterexample :
    c3Obj ∈ validListings [c3Item] ∧ c3Obj.link = JsonVal.jstr "" := by
  refine ⟨?_, rfl⟩
  decide

/-- C3 amended: every listing retained by the dashboard's validation filter
has a `link` of string type (`typeof listing.link === 'string'`); emptiness
of the string is not checked. -/
theorem c3_amended_link_is_string (data : List RespItem) (l : RawObj)
    (h : l ∈ validListings data) : l.link.isString = true := by
  simp only [validListings, List.mem_filterMap] at h
  obtain ⟨item, _, hf⟩ := h
  cases item with
  | nonObject => simp at hf
  | obj o =>
    by_cases hv : validCheck o
    · simp only [hv, if_true, Option.some.injEq] at hf
      subst hf
      have := hv
      simp only [validCheck, Bool.and_eq_true] at this
      exact this.2
    · simp [hv] at hf

/-- C3 amended, witnessed at the counterexample input: `c3Obj` is retained
and its `link` is (an empty) string. -/
theorem c3_amended_witness :
    c3Obj ∈ validListings [c3Item] ∧ c3Obj.link.isString = true := by
  have hmem : c3Obj ∈ validListings [c3Item] := by decide
  exact ⟨hmem, c3_amended_link_is_string [c3Item] c3Obj hmem⟩

/-- C8: for every listing whose `image_url` is `null`, the image slot
renders the No-Image placeholder branch, not an `img` element. -/
theorem c8_null_image_renders_placeholder (l : RawObj)
    (h : l.image_url = JsonVal.jnull) :
    renderListingImage l = ImageRender.noImagePlaceholder := by
  simp [renderListingImage, h, JsonVal.truthy]

/-- C8 witnessed at a concrete listing with `image_url = null`. -/
theorem c8_witness :
    c3Obj.image_url = JsonVal.jnull ∧
    renderListingImage c3Obj = ImageRender.noImagePlaceholder :=
  ⟨rfl, c8_null_image_renders_placeholder c3Obj rfl⟩

/-- C9: every failing execution of `fetchListings` (non-2xx, network error,
non-array body, or a non-axios exception) leaves `listings` and `stats` (and
the rest of the state) unchanged, sets a non-null `error`, and clears
`loading`. -/
theorem c9_error_path_preserves_listings_and_stats (s : DashState)
    (out : FetchOutcome) (h : out.isFailure = true) :
    (fetchListings true out s).listings = s.listings ∧
    (fetchListings true out s).stats = s.stats ∧
    (fetchListings true out s).error ≠ none ∧
    (fetchListings true out s).loading = false ∧
    (fetchListings true out s).retryCount = s.retryCount ∧
    (fetchListings true out s).showOnlyUnseen = s.showOnlyUnseen ∧
    (fetchListings true out s).searchQuery = s.searchQuery ∧
    (fetchListings true out s).scraping = s.scraping := by
  cases out <;> simp_all [fetchListings, FetchOutcome.isFailure]

/-- C9 witnessed at a network error on the initial state. -/
theorem c9_witness :
    FetchOutcome.isFailure .networkErr = true ∧
    ((fetchListings true .networkErr initialState).listings =
        initialState.listings ∧
      (fetchListings true .networkErr initialState).stats =
        initialState.stats ∧
      (fetchListings true .networkErr initialState).error ≠ none ∧
      (fetchListings true .networkErr initialState).loading = false ∧
      (fetchListings true .networkErr initialState).retryCount =
        initialState.retryCount ∧
      (fetchListings true .networkErr initialState).showOnlyUnseen =
        initialState.showOnlyUnseen ∧
      (fetchListings true .networkErr initialState).searchQuery =
        initialState.searchQuery ∧
      (fetchListings true .networkErr initialState).scraping =
        initialState.scraping) :=
  ⟨rfl, c9_error_path_preserves_listings_and_stats initialState .networkErr rfl⟩

/-- C4: for every fetched list of listings whose `scraped_at` values parse
as valid dates (`ts` gives the timestamp each one parses to), the displayed
sequence `filteredAndSortedListings` is ordered most-recent-`scraped_at`-
first: every element dominates all later ones. -/
theorem c4_sorted_most_recent_first (ts : JsonVal → Int) (q : String)
    (xs : List RawObj) :
    (filteredAndSortedListings ts q xs).Pairwise
      (fun a b => ts b.scraped_at ≤ ts a.scraped_at) := by
  have htrans : ∀ a b c : RawObj, scrapedAtDescending ts a b →
      scrapedAtDescending ts b c → scrapedAtDescending ts a c := by
    intro a b c hab hbc
    simp only [scrapedAtDescending, decide_eq_true_eq] at *
    omega
  have htotal : ∀ a b : RawObj,
      scrapedAtDescending ts a b || scrapedAtDescending ts b a := by
    intro a b
    simp only [scrapedAtDescending, Bool.or_eq_true, decide_eq_true_eq]
    omega
  have h := List.sorted_mergeSort htrans htotal (xs.filter (matchesSearch q))
  unfold filteredAndSortedListings
  exact h.imp (by intro a b hab; simpa [scrapedAtDescending] using hab)

/-- C10: the empty search query matches every listing, so
`filteredAndSortedListings` with an empty query is a permutation of the
fetched listings — exactly the same elements, only reordered by the sort. -/
theorem c10_empty_query_is_filter_identity (ts : JsonVal → Int)
    (xs : List RawObj) :
    (∀ l ∈ xs, matchesSearch "" l = true) ∧
    (filteredAndSortedListings ts "" xs).Perm xs := by
  have hmatch : ∀ l : RawObj, matchesSearch "" l = true := by
    intro l
    simp [matchesSearch, jsToLowerCase, jsIncludes]
  refine ⟨fun l _ => hmatch l, ?_⟩
  unfold filteredAndSortedListings
  rw [List.filter_eq_self.mpr fun a _ => hmatch a]
  exact List.mergeSort_perm xs _

/-- C10 witnessed on a one-element list with a constant timestamp map. -/
theorem c10_witness :
    (∀ l ∈ [c3Obj], matchesSearch "" l = true) ∧
    (filteredAndSortedListings (fun _ => 0) "" [c3Obj]).Perm [c3Obj] :=
  c10_empty_query_is_filter_identity (fun _ => 0) [c3Obj]

/-- C6: the listings GET carries `include_seen = !showOnlyUnseen`; composed
with the spec-modelled `list` of the Store, toggle-on requests exclude the
`seen = true` listings and toggle-off requests all persisted listings. -/
theorem c6_include_seen_is_negated_toggle (store : List StoreListing)
    (apiUrl : String) :
    (∀ b, listingsRequestIncludeSeen b = !b) ∧
    (listingsRequestIncludeSeen true = false ∧
      storeList (listingsRequestIncludeSeen true) store =
        store.filter fun l => !l.seen) ∧
    (listingsRequestIncludeSeen false = true ∧
      storeList (listingsRequestIncludeSeen false) store = store) ∧
    (∀ b, listingsRequestUrl apiUrl b =
      apiUrl ++ "/listings?include_seen=" ++ jsBoolString (!b)) := by
  refine ⟨fun b => rfl, ⟨rfl, ?_⟩, ⟨rfl, ?_⟩, fun b => rfl⟩ <;>
    simp [storeList, listingsRequestIncludeSeen]

/-- C7: the Mark-as-Seen control is rendered exactly for the listings whose
`seen` is `false` (for the `Listing` interface's boolean-typed `seen`), and
clicking it sends a body that is exactly the singleton of that listing's
`id`; moreover the only seen-mutating request the dashboard issues invokes
the spec-modelled `markSeen`, under which every record's `seen` only ever
changes from `false` to `true` (old value OR membership of its id), never
back. -/
theorem c7_mark_seen_false_to_true_only (l : RawObj) (b : Bool)
    (hb : l.seen = JsonVal.jbool b) (ids : List String)
    (store : List StoreListing) (r : StoreListing)
    (hr : r ∈ markSeen ids store) :
    (markSeenButton l = if b then none else some [l.id.asString]) ∧
    ∃ r₀ ∈ store, r₀.id = r.id ∧ r.seen = (r₀.seen || decide (r₀.id ∈ ids)) := by
  constructor
  · cases b <;> simp [markSeenButton, hb, JsonVal.truthy]
  · simp only [markSeen, List.mem_map] at hr
    obtain ⟨r₀, hr₀, heq⟩ := hr
    refine ⟨r₀, hr₀, ?_⟩
    by_cases hid : r₀.id ∈ ids
    · simp only [hid, if_true] at heq
      subst heq
      simp [hid]
    · simp only [hid, if_false] at heq
      subst heq
      simp [hid]

/-- C7 witnessed: `c3Obj` (unseen) renders the control with body
`[c3Obj.id]`, and marking id "2" in the two-record Store flips exactly that
record's `seen` to true. -/
theorem c7_witness :
    (markSeenButton c3Obj = if false then none else some [c3Obj.id.asString]) ∧
    ∃ r₀ ∈ c1Store,
      r₀.id = ({ c1StoreUnseen with seen := true } : StoreListing).id ∧
      ({ c1StoreUnseen with seen := true } : StoreListing).seen =
        (r₀.seen || decide (r₀.id ∈ ["2"])) :=
  c7_mark_seen_false_to_true_only c3Obj false rfl ["2"] c1Store
    { c1StoreUnseen with seen := true } (by decide)

/-- Serializing a Store keeps exactly its records: every serialized record
passes the dashboard's validation filter (all checked fields are strings). -/
theorem validListings_serialize (store : List StoreListing) :
    validListings (store.map serializeListing) = store.map serializeObj := by
  induction store with
  | nil => rfl
  | cons a as ih =>
    have hv : validCheck (serializeObj a) = true := rfl
    simp only [List.map_cons, validListings, List.filterMap_cons] at *
    simp [serializeListing, hv, ih]

/-- The dashboard's unseen count over serialized records agrees with the
Store-level unseen filter. -/
theorem filter_unseen_serialize (store : List StoreListing) :
    ((store.map serializeObj).filter fun l => !(l.seen.truthy)) =
      (store.filter fun l => !l.seen).map serializeObj := by
  rw [List.filter_map]
  congr 1

/-- C1 counterexample: with `showOnlyUnseen = true`, after `scrapeListings`
completes successfully against the two-record Store the displayed stats are
`{total := 1, unseen := 1}` — the follow-up `fetchListings` overwrote them —
while `POST scrape` returned `{total_listings := 2, unseen_listings := 1}`,
so the displayed stats do not equal the scrape response for every state of
the toggle. -/
theorem c1_counterexample :
    (scrapeListings true c1Outcome c1ToggledState).stats.total = 1 ∧
    (storeStats c1Store).total = 2 ∧
    ¬ ((scrapeListings true c1Outcome c1ToggledState).stats.total =
          (storeStats c1Store).total ∧
        (scrapeListings true c1Outcome c1ToggledState).stats.unseen =
          (storeStats c1Store).unseen) := by
  refine ⟨?_, ?_, ?_⟩ <;> decide

/-- C1 amended: after `scrapeListings` completes successfully, the stats set
from the `POST scrape` response are overwritten by the follow-up
`fetchListings`; when `showOnlyUnseen` is false (so the re-fetch returns all
persisted listings) the displayed stats again equal the
`{total_listings, unseen_listings}` that `POST scrape` returned, but when
`showOnlyUnseen` is true they describe only the unseen subset. -/
theorem c1_amended_stats_match_when_toggle_off (store : List StoreListing)
    (s : DashState) (h : s.showOnlyUnseen = false) :
    (scrapeListings true
      (.success (storeStats store).total (storeStats store).unseen
        (.success ((storeList (listingsRequestIncludeSeen s.showOnlyUnseen)
          store).map serializeListing))) s).stats = storeStats store := by
  have hdata : storeList (listingsRequestIncludeSeen s.showOnlyUnseen) store
      = store := by
    rw [h]
    rfl
  simp only [scrapeListings, hdata, fetchListings, Bool.not_true,
    Bool.false_eq_true, if_false, validListings_serialize]
  simp [derivedStats, storeStats, filter_unseen_serialize]

/-- C1 amended, witnessed on the two-record Store with the toggle off. -/
theorem c1_amended_witness :
    initialState.showOnlyUnseen = false ∧
    (scrapeListings true
      (.success (storeStats c1Store).total (storeStats c1Store).unseen
        (.success ((storeList (listingsRequestIncludeSeen
          initialState.showOnlyUnseen) c1Store).map serializeListing)))
      initialState).stats = storeStats c1Store :=
  ⟨rfl, c1_amended_stats_match_when_toggle_off c1Store initialState rfl⟩

/-- C5: an empty successful result is never conflated with a failure — after
a successful fetch of a valid empty array, `error` is null and (with the
search box empty, its default) the No-listings branch shows
"No listings found"; after every failed fetch or scrape request a non-null
`error` message is set. -/
theorem c5_empty_success_never_conflated_with_failure (ts : JsonVal → Int)
    (s : DashState) (out : FetchOutcome) (sout : ScrapeOutcome)
    (hq : s.searchQuery = "") (hout : out.isFailure = true)
    (hsout : sout.isFailure = true) :
    (fetchListings true (.success []) s).error = none ∧
    noListingsMessage (fetchListings true (.success []) s).searchQuery
      (filteredAndSortedListings ts
        (fetchListings true (.success []) s).searchQuery
        (fetchListings true (.success []) s).listings) =
      some "No listings found" ∧
    (fetchListings true out s).error ≠ none ∧
    (scrapeListings true sout s).error ≠ none := by
  refine ⟨rfl, ?_, ?_, ?_⟩
  · simp [fetchListings, validListings, filteredAndSortedListings,
      noListingsMessage, hq]
  · cases out <;> simp_all [fetchListings, FetchOutcome.isFailure]
  · cases sout <;> simp_all [scrapeListings, fetchListings,
      ScrapeOutcome.isFailure]

/-- C5 witnessed: empty success on the initial state, a non-array body
failure, and a non-axios scrape failure. -/
theorem c5_witness :
    initialState.searchQuery = "" ∧
    FetchOutcome.isFailure .nonArrayBody = true ∧
    ScrapeOutcome.isFailure .nonAxiosErr = true ∧
    ((fetchListings true (.success []) initialState).error = none ∧
      noListingsMessage (fetchListings true (.success []) initialState).searchQuery
        (filteredAndSortedListings (fun _ => 0)
          (fetchListings true (.success []) initialState).searchQuery
          (fetchListings true (.success []) initialState).listings) =
        some "No listings found" ∧
      (fetchListings true .nonArrayBody initialState).error ≠ none ∧
      (scrapeListings true .nonAxiosErr initialState).error ≠ none) :=
  ⟨rfl, rfl, rfl,
    c5_empty_success_never_conflated_with_failure (fun _ => 0) initialState
      .nonArrayBody .nonAxiosErr rfl rfl rfl⟩
